import Mathlib

/-!
Verification of the FleetLink frontend against its design specification.

The development shallowly embeds the client-side form validation engine
(`validateForm` in `src/unnamed/part_004`, duplicated in
`src/unnamed/part_003`), the add-vehicle and search submission flows
(`src/frontend/src/pages/AddVehicle.jsx`,
`src/frontend/src/pages/SearchBooking.jsx`), the HTTP error-message
normalisation (`src/frontend/src/services/api.js`) and the ride-duration
helper (`calculateRideDuration` in `src/unnamed/part_004`).

JavaScript-specific behaviour (truthiness, `toString`, `Number`,
`parseInt`, `||` defaults) is modelled by explicit functions below.
-/

/-- JavaScript-like values as they occur in the embedded form records:
`undefined`, `null`, strings, and integer numbers. Other JS value shapes
(fractional numbers, booleans, objects) do not occur in the embedded code
paths of this repository. -/
inductive JSValue where
  | undefined
  | null
  | str (s : String)
  | num (n : Int)
deriving DecidableEq

/-- JS truthiness test `!value` (negated) on the embedded value shapes:
`undefined`, `null`, the empty string and the number 0 are falsy. -/
def jsFalsy : JSValue → Bool
  | .undefined => true
  | .null => true
  | .str s => s == ""
  | .num n => n == 0

/-- JS `value.toString()` on the embedded value shapes. `validateForm`
never reaches `toString` on `null` or `undefined` (falsy values
short-circuit earlier in every branch that stringifies), so the values
given for them are those of JS `String(value)`. -/
def JSValue.toStr : JSValue → String
  | .undefined => "undefined"
  | .null => "null"
  | .str s => s
  | .num n => toString n

/-- Whitespace as removed by JS `String.prototype.trim`, approximated by
the Unicode whitespace classification of `Char.isWhitespace`. -/
def isJsSpace (c : Char) : Bool := c.isWhitespace

/-- Trim leading and trailing whitespace from a character list. -/
def jsTrimList (cs : List Char) : List Char :=
  ((cs.dropWhile isJsSpace).reverse.dropWhile isJsSpace).reverse

/-- JS `s.trim()`. -/
def jsTrim (s : String) : String := String.mk (jsTrimList s.data)

/-- Decimal value of a digit run. -/
def parseDigits (cs : List Char) : Nat :=
  cs.foldl (fun acc c => acc * 10 + (c.toNat - '0'.toNat)) 0

/-- JS `Number(s)` for decimal numerals: whitespace is trimmed, the empty
string converts to 0, an optional sign precedes an integer part, a
fractional part, or both; any other remainder is NaN (`none`). Exponent,
hexadecimal and `Infinity` forms never occur in the embedded inputs and
are mapped to NaN here. -/
def jsStringToNumber (s : String) : Option ℚ :=
  let cs := jsTrimList s.data
  if cs.isEmpty then some 0
  else
    let signed : Int × List Char :=
      match cs with
      | '-' :: t => (-1, t)
      | '+' :: t => (1, t)
      | _ => (1, cs)
    let intPart := signed.2.takeWhile Char.isDigit
    let rest := signed.2.dropWhile Char.isDigit
    match rest with
    | [] =>
      if intPart.isEmpty then none
      else some (mkRat (signed.1 * parseDigits intPart) 1)
    | '.' :: afterDot =>
      let fracPart := afterDot.takeWhile Char.isDigit
      let rest2 := afterDot.dropWhile Char.isDigit
      if rest2.isEmpty && !(intPart.isEmpty && fracPart.isEmpty) then
        some (mkRat
          (signed.1 * (parseDigits intPart * 10 ^ fracPart.length + parseDigits fracPart))
          (10 ^ fracPart.length))
      else none
    | _ => none

/-- JS `Number(value)` on the embedded value shapes (`none` is NaN). -/
def jsToNumber : JSValue → Option ℚ
  | .undefined => none
  | .null => some 0
  | .str s => jsStringToNumber s
  | .num n => some (n : ℚ)

/-- JS `parseInt(s)` with radix 10: after trimming, an optional sign
followed by the longest run of leading digits; `none` is NaN. The
hexadecimal auto-detection of `parseInt` never occurs in the embedded
inputs. -/
def jsParseInt (s : String) : Option Int :=
  let cs := jsTrimList s.data
  let signed : Int × List Char :=
    match cs with
    | '-' :: t => (-1, t)
    | '+' :: t => (1, t)
    | _ => (1, cs)
  let digits := signed.2.takeWhile Char.isDigit
  if digits.isEmpty then none else some (signed.1 * (parseDigits digits : Int))

/-- JS `o || d` for an optional string `o`: the empty string is falsy and
falls back to the default, exactly like an absent value. -/
def jsOrString (o : Option String) (d : String) : String :=
  match o with
  | some s => if s == "" then d else s
  | none => d

/-- First-some choice between two optional error messages. -/
def optOr (a b : Option String) : Option String :=
  match a with
  | some x => some x
  | none => b

/-- One field's declarative constraints as read by `validateForm`
(`src/unnamed/part_004` lines 233-299). `pattern` models `RegExp.test` as
a predicate on the stringified value; `validate` is the custom check
receiving the raw value and the whole record; `min` and `max` are
integers in every rule set of the source. -/
structure FieldRule where
  required : Bool := false
  minLength : Option Nat := none
  maxLength : Option Nat := none
  pattern : Option (String → Bool) := none
  message : Option String := none
  type : Option String := none
  min : Option Int := none
  max : Option Int := none
  validate : Option (JSValue → (String → JSValue) → Option String) := none

/-- Result shape `{ isValid, errors }` returned by `validateForm`. -/
structure ValidationResult where
  isValid : Bool
  errors : List (String × String)

/-- Check `rule.minLength && value.toString().length < rule.minLength`:
a `minLength` of 0 is falsy in JS and disables the check. -/
def minLengthError (field : String) (value : JSValue) (rule : FieldRule) : Option String :=
  match rule.minLength with
  | some n =>
    if 0 < n ∧ value.toStr.length < n then
      some (field ++ " must be at least " ++ toString n ++ " characters")
    else none
  | none => none

/-- Check `rule.maxLength && value.toString().length > rule.maxLength`:
a `maxLength` of 0 is falsy in JS and disables the check. -/
def maxLengthError (field : String) (value : JSValue) (rule : FieldRule) : Option String :=
  match rule.maxLength with
  | some n =>
    if 0 < n ∧ n < value.toStr.length then
      some (field ++ " cannot exceed " ++ toString n ++ " characters")
    else none
  | none => none

/-- Check `rule.pattern && !rule.pattern.test(value.toString())`; on
failure the message is `rule.message || "<field> format is invalid"`. -/
def patternError (field : String) (value : JSValue) (rule : FieldRule) : Option String :=
  match rule.pattern with
  | some p =>
    if p value.toStr then none
    else some (jsOrString rule.message (field ++ " format is invalid"))
  | none => none

/-- Lower-bound part of the numeric check: `rule.min !== undefined && num < rule.min`. -/
def numMinError (field : String) (n : ℚ) (rule : FieldRule) : Option String :=
  match rule.min with
  | some lo => if n < (lo : ℚ) then some (field ++ " must be at least " ++ toString lo) else none
  | none => none

/-- Upper-bound part of the numeric check: `rule.max !== undefined && num > rule.max`. -/
def numMaxError (field : String) (n : ℚ) (rule : FieldRule) : Option String :=
  match rule.max with
  | some hi => if (hi : ℚ) < n then some (field ++ " cannot exceed " ++ toString hi) else none
  | none => none

/-- The numeric check, run only when `rule.type === 'number'`: NaN fails
with the valid-number message, then the `min` and `max` bounds apply. -/
def numberError (field : String) (value : JSValue) (rule : FieldRule) : Option String :=
  if rule.type = some "number" then
    match jsToNumber value with
    | none => some (field ++ " must be a valid number")
    | some n => optOr (numMinError field n rule) (numMaxError field n rule)
  else none

/-- Outcome of the structural checks (everything before the custom check)
for one field: a recorded error, an early skip (optional and empty), or a
pass that lets the custom check run. -/
inductive StructResult where
  | err (msg : String)
  | skip
  | pass
deriving DecidableEq

/-- The structural checks of `validateForm` for one field, in source
order: required, optional-and-empty skip, minLength, maxLength, pattern,
numeric. Each failing check records its message and `return`s out of the
iteration, so at most one structural error is ever recorded per field. -/
def structuralCheck (field : String) (value : JSValue) (rule : FieldRule) : StructResult :=
  if rule.required && (jsFalsy value || (jsTrim value.toStr == "")) then
    StructResult.err (field ++ " is required")
  else if jsFalsy value && !rule.required then
    StructResult.skip
  else
    match optOr (minLengthError field value rule)
        (optOr (maxLengthError field value rule)
          (optOr (patternError field value rule) (numberError field value rule))) with
    | some m => StructResult.err m
    | none => StructResult.pass

/-- The custom check `rule.validate`: its result is recorded only when it
is a truthy (non-empty) string. -/
def customResult (value : JSValue) (data : String → JSValue) (rule : FieldRule) : Option String :=
  match rule.validate with
  | some f =>
    match f value data with
    | some s => if s == "" then none else some s
    | none => none
  | none => none

/-- The whole per-field check of `validateForm`: the custom check runs
only when every structural check passed, because a structural failure or
the optional-and-empty skip `return`s out of the iteration first. -/
def checkField (field : String) (data : String → JSValue) (rule : FieldRule) : Option String :=
  match structuralCheck field (data field) rule with
  | .err m => some m
  | .skip => none
  | .pass => customResult (data field) data rule

/-- JS object assignment `errors[field] = msg`: update in place when the
key already exists, append otherwise. -/
def objInsert : List (String × String) → String → String → List (String × String)
  | [], k, v => [(k, v)]
  | (k0, v0) :: rest, k, v =>
    if k0 = k then (k0, v) :: rest else (k0, v0) :: objInsert rest k v

/-- The `Object.keys(rules).forEach` loop of `validateForm`, threading
the `errors` object through the per-field checks in declaration order. -/
def runChecks (data : String → JSValue) : List (String × FieldRule) → List (String × String) → List (String × String)
  | [], errors => errors
  | (field, rule) :: rest, errors =>
    runChecks data rest
      (match checkField field data rule with
       | some m => objInsert errors field m
       | none => errors)

/-- `validateForm(data, rules)` from `src/unnamed/part_004` lines
233-299: run every field's checks, then report
`isValid = (no errors recorded)` together with the errors object. -/
def validateForm (data : String → JSValue) (rules : List (String × FieldRule)) : ValidationResult :=
  let errors := runChecks data rules []
  { isValid := errors.isEmpty, errors := errors }

namespace Part003

/-- Check `rule.minLength && value.toString().length < rule.minLength`
from the `validateForm` copy in `src/unnamed/part_003` (lines 23-27). -/
def minLengthError (field : String) (value : JSValue) (rule : FieldRule) : Option String :=
  match rule.minLength with
  | some n =>
    if 0 < n ∧ value.toStr.length < n then
      some (field ++ " must be at least " ++ toString n ++ " characters")
    else none
  | none => none

/-- Check `rule.maxLength && value.toString().length > rule.maxLength`
from the `validateForm` copy in `src/unnamed/part_003` (lines 29-33). -/
def maxLengthError (field : String) (value : JSValue) (rule : FieldRule) : Option String :=
  match rule.maxLength with
  | some n =>
    if 0 < n ∧ n < value.toStr.length then
      some (field ++ " cannot exceed " ++ toString n ++ " characters")
    else none
  | none => none

/-- Pattern check from the `validateForm` copy in `src/unnamed/part_003`
(lines 35-39). -/
def patternError (field : String) (value : JSValue) (rule : FieldRule) : Option String :=
  match rule.pattern with
  | some p =>
    if p value.toStr then none
    else some (jsOrString rule.message (field ++ " format is invalid"))
  | none => none

/-- Lower numeric bound from the copy in `src/unnamed/part_003` (lines 49-52). -/
def numMinError (field : String) (n : ℚ) (rule : FieldRule) : Option String :=
  match rule.min with
  | some lo => if n < (lo : ℚ) then some (field ++ " must be at least " ++ toString lo) else none
  | none => none

/-- Upper numeric bound from the copy in `src/unnamed/part_003` (lines 54-57). -/
def numMaxError (field : String) (n : ℚ) (rule : FieldRule) : Option String :=
  match rule.max with
  | some hi => if (hi : ℚ) < n then some (field ++ " cannot exceed " ++ toString hi) else none
  | none => none

/-- Numeric check from the copy in `src/unnamed/part_003` (lines 41-58). -/
def numberError (field : String) (value : JSValue) (rule : FieldRule) : Option String :=
  if rule.type = some "number" then
    match jsToNumber value with
    | none => some (field ++ " must be a valid number")
    | some n => optOr (numMinError field n rule) (numMaxError field n rule)
  else none

/-- Structural checks of the copy in `src/unnamed/part_003` (lines 14-58). -/
def structuralCheck (field : String) (value : JSValue) (rule : FieldRule) : StructResult :=
  if rule.required && (jsFalsy value || (jsTrim value.toStr == "")) then
    StructResult.err (field ++ " is required")
  else if jsFalsy value && !rule.required then
    StructResult.skip
  else
    match optOr (minLengthError field value rule)
        (optOr (maxLengthError field value rule)
          (optOr (patternError field value rule) (numberError field value rule))) with
    | some m => StructResult.err m
    | none => StructResult.pass

/-- Custom check of the copy in `src/unnamed/part_003` (lines 60-66). -/
def customResult (value : JSValue) (data : String → JSValue) (rule : FieldRule) : Option String :=
  match rule.validate with
  | some f =>
    match f value data with
    | some s => if s == "" then none else some s
    | none => none
  | none => none

/-- Per-field check of the copy in `src/unnamed/part_003`. -/
def checkField (field : String) (data : String → JSValue) (rule : FieldRule) : Option String :=
  match structuralCheck field (data field) rule with
  | .err m => some m
  | .skip => none
  | .pass => customResult (data field) data rule

/-- The `errors[field] = msg` assignment of the copy in `src/unnamed/part_003`. -/
def objInsert : List (String × String) → String → String → List (String × String)
  | [], k, v => [(k, v)]
  | (k0, v0) :: rest, k, v =>
    if k0 = k then (k0, v) :: rest else (k0, v0) :: objInsert rest k v

/-- The `Object.keys(rules).forEach` loop of the copy in `src/unnamed/part_003`. -/
def runChecks (data : String → JSValue) : List (String × FieldRule) → List (String × String) → List (String × String)
  | [], errors => errors
  | (field, rule) :: rest, errors =>
    runChecks data rest
      (match checkField field data rule with
       | some m => objInsert errors field m
       | none => errors)

/-- `validateForm(data, rules)` from `src/unnamed/part_003` lines 7-73,
the second, textually duplicated copy of the validation engine. -/
def validateForm (data : String → JSValue) (rules : List (String × FieldRule)) : ValidationResult :=
  let errors := runChecks data rules []
  { isValid := errors.isEmpty, errors := errors }

end Part003

/-! ### Elementary lemmas about the errors object -/

theorem lookup_objInsert_self (acc : List (String × String)) (k v : String) :
    List.lookup k (objInsert acc k v) = some v := by
  induction acc with
  | nil => simp [objInsert]
  | cons p rest ih =>
    obtain ⟨k0, v0⟩ := p
    by_cases h : k0 = k
    · subst h
      simp [objInsert]
    · simp [objInsert, h, List.lookup_cons, beq_false_of_ne (Ne.symm h), ih]

theorem lookup_objInsert_ne (acc : List (String × String)) (k v k' : String) (h : k' ≠ k) :
    List.lookup k' (objInsert acc k v) = List.lookup k' acc := by
  induction acc with
  | nil => simp [objInsert, List.lookup_cons, beq_false_of_ne h]
  | cons p rest ih =>
    obtain ⟨k0, v0⟩ := p
    by_cases h0 : k0 = k
    · subst h0
      simp [objInsert, List.lookup_cons, beq_false_of_ne h]
    · simp [objInsert, h0, List.lookup_cons, ih]

theorem fst_mem_objInsert (acc : List (String × String)) (k v : String) :
    ∀ p ∈ objInsert acc k v, p.1 = k ∨ p.1 ∈ acc.map Prod.fst := by
  induction acc with
  | nil =>
    intro p hp
    simp [objInsert] at hp
    simp [hp]
  | cons q rest ih =>
    obtain ⟨k0, v0⟩ := q
    intro p hp
    by_cases h0 : k0 = k
    · subst h0
      simp [objInsert] at hp
      rcases hp with h | h
      · simp [h]
      · right
        rw [List.map_cons]
        exact List.mem_cons_of_mem _ (List.mem_map_of_mem Prod.fst h)
    · simp only [objInsert, if_neg h0, List.mem_cons] at hp
      rcases hp with h | h
      · right
        simp [h]
      · rcases ih p h with h1 | h1
        · exact Or.inl h1
        · right
          rw [List.map_cons]
          exact List.mem_cons_of_mem _ h1

theorem fst_mem_runChecks (data : String → JSValue) (rules : List (String × FieldRule)) :
    ∀ acc : List (String × String), ∀ p ∈ runChecks data rules acc,
      p.1 ∈ acc.map Prod.fst ∨ p.1 ∈ rules.map Prod.fst := by
  induction rules with
  | nil =>
    intro acc p hp
    exact Or.inl (List.mem_map_of_mem Prod.fst hp)
  | cons q rest ih =>
    obtain ⟨field, rule⟩ := q
    intro acc p hp
    rw [runChecks] at hp
    cases hc : checkField field data rule with
    | none =>
      rw [hc] at hp
      rcases ih acc p hp with h | h
      · exact Or.inl h
      · right
        rw [List.map_cons]
        exact List.mem_cons_of_mem _ h
    | some m =>
      rw [hc] at hp
      rcases ih (objInsert acc field m) p hp with h | h
      · rcases List.mem_map.mp h with ⟨q', hq', hfst⟩
        rcases fst_mem_objInsert acc field m q' hq' with h1 | h1
        · right
          rw [List.map_cons, ← hfst, h1]
          exact List.mem_cons_self _ _
        · exact Or.inl (hfst ▸ h1)
      · right
        rw [List.map_cons]
        exact List.mem_cons_of_mem _ h

theorem lookup_runChecks_not_mem (data : String → JSValue) (rules : List (String × FieldRule))
    (f : String) (hf : f ∉ rules.map Prod.fst) :
    ∀ acc, List.lookup f (runChecks data rules acc) = List.lookup f acc := by
  induction rules with
  | nil => intro acc; rfl
  | cons q rest ih =>
    obtain ⟨field, rule⟩ := q
    have hne : f ≠ field := by
      intro h
      exact hf (by rw [List.map_cons, h]; exact List.mem_cons_self _ _)
    have hrest : f ∉ rest.map Prod.fst := by
      intro h
      exact hf (by rw [List.map_cons]; exact List.mem_cons_of_mem _ h)
    intro acc
    rw [runChecks]
    cases hc : checkField field data rule with
    | none => exact ih hrest acc
    | some m =>
      rw [ih hrest (objInsert acc field m), lookup_objInsert_ne acc field m f hne]

theorem lookup_runChecks_mem (data : String → JSValue) (rules : List (String × FieldRule))
    (f : String) (r : FieldRule) (hnd : (rules.map Prod.fst).Nodup) (hmem : (f, r) ∈ rules) :
    ∀ acc, List.lookup f (runChecks data rules acc) =
      match checkField f data r with
      | some m => some m
      | none => List.lookup f acc := by
  induction rules with
  | nil => cases hmem
  | cons q rest ih =>
    obtain ⟨field, rule⟩ := q
    rw [List.map_cons, List.nodup_cons] at hnd
    intro acc
    rcases List.mem_cons.mp hmem with heq | hmem'
    · injection heq with h1 h2
      subst h1
      subst h2
      rw [runChecks]
      cases hc : checkField f data r with
      | none => rw [lookup_runChecks_not_mem data rest f hnd.1 acc]
      | some m =>
        rw [lookup_runChecks_not_mem data rest f hnd.1 (objInsert acc f m),
          lookup_objInsert_self]
    · have hf : f ∈ rest.map Prod.fst := List.mem_map.mpr ⟨(f, r), hmem', rfl⟩
      have hne : f ≠ field := by
        intro h
        exact hnd.1 (h ▸ hf)
      rw [runChecks]
      cases hc : checkField field data rule with
      | none => exact ih hnd.2 hmem' acc
      | some m =>
        rw [ih hnd.2 hmem' (objInsert acc field m)]
        cases checkField f data r with
        | some m' => rfl
        | none => exact lookup_objInsert_ne acc field m f hne

/-- Under distinct rule keys, the error recorded for a field is exactly
the outcome of that field's own checks. -/
theorem validateForm_lookup (data : String → JSValue) (rules : List (String × FieldRule))
    (f : String) (r : FieldRule) (hnd : (rules.map Prod.fst).Nodup) (hmem : (f, r) ∈ rules) :
    List.lookup f (validateForm data rules).errors = checkField f data r := by
  show List.lookup f (runChecks data rules []) = checkField f data r
  rw [lookup_runChecks_mem data rules f r hnd hmem []]
  cases checkField f data r <;> rfl

/-- Claim C1: for every record and rule set, `validateForm` returns a
result whose errors-map key set is a subset of the rule set's field
names, and whose `isValid` flag is true exactly when the errors map is
empty. -/
theorem validateForm_invariants (data : String → JSValue) (rules : List (String × FieldRule)) :
    ((validateForm data rules).isValid = true ↔ (validateForm data rules).errors = []) ∧
    ((validateForm data rules).errors.map Prod.fst ⊆ rules.map Prod.fst) := by
  constructor
  · show (runChecks data rules []).isEmpty = true ↔ runChecks data rules [] = []
    rw [List.isEmpty_iff]
  · intro a ha
    rcases List.mem_map.mp ha with ⟨p, hp, hfst⟩
    rcases fst_mem_runChecks data rules [] p hp with h | h
    · simp at h
    · exact hfst ▸ h

/-- Witness for C1 at a concrete record and rule set. -/
theorem validateForm_invariants_witness :
    (validateForm (fun _ => JSValue.str "") [("name", { required := true })]).isValid = false ∧
    (validateForm (fun _ => JSValue.str "") [("name", { required := true })]).errors.map Prod.fst
      ⊆ ["name"] := by
  constructor
  · decide
  · exact (validateForm_invariants (fun _ => JSValue.str "") [("name", { required := true })]).2

/-! ### The duplicated engine (claim C5) -/

theorem part003_checkField_eq : Part003.checkField = checkField := rfl

theorem part003_objInsert_eq :
    ∀ (acc : List (String × String)) (k v : String),
      Part003.objInsert acc k v = objInsert acc k v := by
  intro acc
  induction acc with
  | nil => intro k v; rfl
  | cons p rest ih =>
    obtain ⟨k0, v0⟩ := p
    intro k v
    rw [Part003.objInsert, objInsert]
    by_cases h : k0 = k
    · simp [h]
    · simp [h, ih]

theorem part003_runChecks_eq (data : String → JSValue) :
    ∀ (rules : List (String × FieldRule)) (acc : List (String × String)),
      Part003.runChecks data rules acc = runChecks data rules acc := by
  intro rules
  induction rules with
  | nil => intro acc; rfl
  | cons q rest ih =>
    obtain ⟨field, rule⟩ := q
    intro acc
    rw [Part003.runChecks, runChecks, part003_checkField_eq]
    cases checkField field data rule with
    | none => exact ih _
    | some m =>
      show Part003.runChecks data rest (Part003.objInsert acc field m)
        = runChecks data rest (objInsert acc field m)
      rw [part003_objInsert_eq]
      exact ih _

/-- Claim C5: the two textually duplicated implementations of the
validation engine (`validateForm` in `src/unnamed/part_003` and in
`src/unnamed/part_004`) are extensionally equal: on every record and rule
set they return the same `ValidationResult`. -/
theorem validateForm_duplicates_agree (data : String → JSValue) (rules : List (String × FieldRule)) :
    Part003.validateForm data rules = validateForm data rules := by
  show ValidationResult.mk (Part003.runChecks data rules []).isEmpty (Part003.runChecks data rules [])
    = ValidationResult.mk (runChecks data rules []).isEmpty (runChecks data rules [])
  rw [part003_runChecks_eq]

/-! ### The custom check never overrides a structural error (claim C2) -/

/-- Rule used to refute claim C2: required, with a custom check that
always returns the non-empty message "custom boom". -/
def ruleWithCustomOverride : FieldRule :=
  { required := true, validate := some (fun _ _ => some "custom boom") }

/-- Claim C2 counterexample: with `ruleWithCustomOverride` and the empty
string as value, the structural required error is reported and the custom
check's non-empty message "custom boom" is not: the source `return`s out
of the field's iteration at the required check, before the custom check
could run, so the custom message never replaces the structural error. -/
theorem custom_override_counterexample :
    (validateForm (fun _ => JSValue.str "") [("qty", ruleWithCustomOverride)]).errors
      = [("qty", "qty is required")] ∧
    ("qty", "custom boom") ∉
      (validateForm (fun _ => JSValue.str "") [("qty", ruleWithCustomOverride)]).errors := by
  constructor
  · decide
  · decide

/-- Claim C2 (amended): the custom check runs last but only when every
structural check passed; in that case its truthy result is the field's
reported error. When a structural check fails, its error is reported and
the custom check does not run at all, so a custom message never replaces
a structural error. When the field is skipped as optional-and-empty, no
error is reported. -/
theorem custom_check_runs_only_after_structural_pass (data : String → JSValue)
    (rules : List (String × FieldRule)) (field : String) (rule : FieldRule)
    (hnd : (rules.map Prod.fst).Nodup) (hmem : (field, rule) ∈ rules) :
    (structuralCheck field (data field) rule = StructResult.pass →
      List.lookup field (validateForm data rules).errors = customResult (data field) data rule) ∧
    (∀ m, structuralCheck field (data field) rule = StructResult.err m →
      List.lookup field (validateForm data rules).errors = some m) ∧
    (structuralCheck field (data field) rule = StructResult.skip →
      List.lookup field (validateForm data rules).errors = none) := by
  refine ⟨fun hp => ?_, fun m hm => ?_, fun hs => ?_⟩
  · rw [validateForm_lookup data rules field rule hnd hmem]
    unfold checkField
    rw [hp]
  · rw [validateForm_lookup data rules field rule hnd hmem]
    unfold checkField
    rw [hm]
  · rw [validateForm_lookup data rules field rule hnd hmem]
    unfold checkField
    rw [hs]

/-- Rule used to witness the amended claim C2: only a custom check. -/
def ruleWithCustomOnly : FieldRule := { validate := some (fun _ _ => some "boom") }

/-- Witness for the amended claim C2: all structural checks pass, so the
custom check's message is the reported error. -/
theorem custom_check_runs_only_after_structural_pass_witness :
    List.lookup "qty" (validateForm (fun _ => JSValue.str "ok") [("qty", ruleWithCustomOnly)]).errors
      = some "boom" := by
  exact (custom_check_runs_only_after_structural_pass (fun _ => JSValue.str "ok")
    [("qty", ruleWithCustomOnly)] "qty" ruleWithCustomOnly
    (by decide) (List.mem_singleton.mpr rfl)).1 rfl

/-! ### The required check (claim C3) -/

/-- The rule `{required: true}` of the spec's required-check scenario. -/
def requiredOnlyRule : FieldRule := { required := true }

/-- Claim C3 counterexample: the numeric value 0 is present (neither
missing nor null nor undefined) and its string conversion "0" does not
trim to the empty string, yet `validateForm` reports the field as
required, because JS truthiness makes `!value` true for the number 0. -/
theorem required_zero_counterexample :
    (validateForm (fun _ => JSValue.num 0) [("qty", requiredOnlyRule)]).errors
      = [("qty", "qty is required")] ∧
    JSValue.num 0 ≠ JSValue.undefined ∧ JSValue.num 0 ≠ JSValue.null ∧
    jsTrim (JSValue.num 0).toStr ≠ "" := by
  refine ⟨by decide, by decide, by decide, by decide⟩

/-- The required-only rule records its error exactly when the value is
JS-falsy or trims to the empty string. -/
theorem checkField_requiredOnly (data : String → JSValue) (field : String) :
    checkField field data requiredOnlyRule =
      if jsFalsy (data field) || (jsTrim (data field).toStr == "") then
        some (field ++ " is required")
      else none := by
  by_cases hb : (jsFalsy (data field) || (jsTrim (data field).toStr == "")) = true
  · simp [checkField, structuralCheck, requiredOnlyRule, hb]
  · rw [Bool.not_eq_true] at hb
    simp [checkField, structuralCheck, requiredOnlyRule, hb, minLengthError, maxLengthError,
      patternError, numberError, customResult, optOr]

/-- Claim C3 (amended): for a field whose rule is `{required: true}`, the
error "<field> is required" is reported exactly when the value is JS-falsy
(absent, null, the empty string, or the number 0) or its string
conversion trims to the empty string. In particular "" and
whitespace-only values are reported required; the amendment is that the
JS-falsy number 0 is also reported required even though it is present
and does not stringify to whitespace. -/
theorem required_error_iff (data : String → JSValue) (rules : List (String × FieldRule))
    (field : String) (hnd : (rules.map Prod.fst).Nodup)
    (hmem : (field, requiredOnlyRule) ∈ rules) :
    List.lookup field (validateForm data rules).errors = some (field ++ " is required") ↔
      (jsFalsy (data field) = true ∨ jsTrim (data field).toStr = "") := by
  rw [validateForm_lookup data rules field requiredOnlyRule hnd hmem, checkField_requiredOnly]
  by_cases hb : (jsFalsy (data field) || (jsTrim (data field).toStr == "")) = true
  · simp only [hb, if_true]
    simp only [Bool.or_eq_true, beq_iff_eq] at hb
    simp [hb]
  · rw [Bool.not_eq_true] at hb
    simp only [hb, if_false]
    simp only [Bool.or_eq_false_iff, beq_eq_false_iff_ne] at hb
    simp [hb.1, hb.2]

/-- Witness for the amended claim C3: a whitespace-only value is reported
required. -/
theorem required_error_iff_witness :
    List.lookup "note" (validateForm (fun _ => JSValue.str "   ") [("note", requiredOnlyRule)]).errors
      = some ("note" ++ " is required") := by
  exact (required_error_iff (fun _ => JSValue.str "   ") [("note", requiredOnlyRule)] "note"
    (by decide) (List.mem_singleton.mpr rfl)).mpr (Or.inr (by decide))

/-! ### Numeric bound messages (claim C4) -/

/-- The rule `{type: "number", min: 1, max: 50000}` of the spec's numeric
scenario. -/
def amountNumericRule : FieldRule := { type := some "number", min := some 1, max := some 50000 }

/-- Claim C4: under `{type:"number", min:1, max:50000}`, the value "0"
yields the minimum-bound message, "50001" the maximum-bound message, and
"abc" the valid-number message. -/
theorem numeric_bound_messages :
    (validateForm (fun _ => JSValue.str "0") [("amount", amountNumericRule)]).errors
      = [("amount", "amount must be at least 1")] ∧
    (validateForm (fun _ => JSValue.str "50001") [("amount", amountNumericRule)]).errors
      = [("amount", "amount cannot exceed 50000")] ∧
    (validateForm (fun _ => JSValue.str "abc") [("amount", amountNumericRule)]).errors
      = [("amount", "amount must be a valid number")] := by
  refine ⟨by decide, by decide, by decide⟩

/-! ### The add-vehicle form (claims C6 and C7) -/

/-- The `name` rule of `AddVehicle.jsx` lines 28-33. -/
def vehicleNameRule : FieldRule :=
  { required := true, minLength := some 2, maxLength := some 100,
    message := some "Vehicle name must be between 2-100 characters" }

/-- The `capacityKg` rule of `AddVehicle.jsx` lines 34-40. -/
def capacityKgRule : FieldRule :=
  { required := true, type := some "number", min := some 1, max := some 50000,
    message := some "Capacity must be between 1-50,000 kg" }

/-- The `tyres` rule of `AddVehicle.jsx` lines 41-47. -/
def tyresRule : FieldRule :=
  { required := true, type := some "number", min := some 2, max := some 18,
    message := some "Number of tyres must be between 2-18" }

/-- The `validationRules` object of `AddVehicle.jsx` lines 27-48. -/
def addVehicleRules : List (String × FieldRule) :=
  [("name", vehicleNameRule), ("capacityKg", capacityKgRule), ("tyres", tyresRule)]

/-- The add-vehicle form state: three text inputs (`AddVehicle.jsx` lines 15-19). -/
structure AddVehicleForm where
  name : String
  capacityKg : String
  tyres : String

/-- The form state as the JS record handed to `validateForm`. -/
def AddVehicleForm.asData (f : AddVehicleForm) : String → JSValue := fun k =>
  if k = "name" then .str f.name
  else if k = "capacityKg" then .str f.capacityKg
  else if k = "tyres" then .str f.tyres
  else .undefined

/-- The request body built on a valid submission (`AddVehicle.jsx` lines
92-96): trimmed name and `parseInt`-parsed numbers. -/
structure VehiclePayload where
  name : String
  capacityKg : Option Int
  tyres : Option Int

/-- Observable synchronous outcome of one `handleSubmit` run up to the
network call: whether `setIsSubmitting(true)` executed, the field error
map written, the toast surfaced, and the request issued (if any). -/
structure SubmitOutcome where
  setSubmittingTrue : Bool
  errors : List (String × String)
  toast : Option String
  request : Option VehiclePayload

/-- The synchronous prefix of `handleSubmit` in `AddVehicle.jsx` lines
75-99: validate the form; when invalid, record the per-field errors,
surface the single aggregate toast and return before any network call;
when valid, flip to submitting, clear the errors and issue the request. -/
def addVehicleSubmit (form : AddVehicleForm) : SubmitOutcome :=
  let validation := validateForm form.asData addVehicleRules
  if !validation.isValid then
    { setSubmittingTrue := false, errors := validation.errors,
      toast := some "Please fix the errors in the form", request := none }
  else
    { setSubmittingTrue := true, errors := [],
      toast := none,
      request := some { name := jsTrim form.name, capacityKg := jsParseInt form.capacityKg,
                        tyres := jsParseInt form.tyres } }

/-- Claim C6: on a submit whose form state fails validation, the
submission state stays idle, no network request is issued, a single
aggregate toast is surfaced, and the error map is the validation's error
map, which carries the error of every failing field. -/
theorem addVehicle_invalid_submit (form : AddVehicleForm)
    (h : (validateForm form.asData addVehicleRules).isValid = false) :
    (addVehicleSubmit form).setSubmittingTrue = false ∧
    (addVehicleSubmit form).errors = (validateForm form.asData addVehicleRules).errors ∧
    (addVehicleSubmit form).toast = some "Please fix the errors in the form" ∧
    (addVehicleSubmit form).request = none ∧
    (∀ (field : String) (rule : FieldRule) (m : String), (field, rule) ∈ addVehicleRules →
      checkField field form.asData rule = some m →
      List.lookup field (addVehicleSubmit form).errors = some m) := by
  have hout : addVehicleSubmit form =
      { setSubmittingTrue := false,
        errors := (validateForm form.asData addVehicleRules).errors,
        toast := some "Please fix the errors in the form", request := none } := by
    simp [addVehicleSubmit, h]
  refine ⟨by rw [hout], by rw [hout], by rw [hout], by rw [hout], ?_⟩
  intro field rule m hmem hcf
  rw [hout]
  show List.lookup field (validateForm form.asData addVehicleRules).errors = some m
  rw [validateForm_lookup form.asData addVehicleRules field rule (by decide) hmem, hcf]

/-- Witness for claim C6 at the spec's scenario `name=""`,
`capacityKg="60000"`, `tyres="1"`: all three fields report errors and no
request is issued. -/
theorem addVehicle_invalid_submit_witness :
    (addVehicleSubmit (AddVehicleForm.mk "" "60000" "1")).request = none ∧
    List.lookup "name" (addVehicleSubmit (AddVehicleForm.mk "" "60000" "1")).errors
      = some "name is required" ∧
    List.lookup "capacityKg" (addVehicleSubmit (AddVehicleForm.mk "" "60000" "1")).errors
      = some "capacityKg cannot exceed 50000" ∧
    List.lookup "tyres" (addVehicleSubmit (AddVehicleForm.mk "" "60000" "1")).errors
      = some "tyres must be at least 2" := by
  have main := addVehicle_invalid_submit (AddVehicleForm.mk "" "60000" "1") (by decide)
  refine ⟨main.2.2.2.1, ?_, ?_, ?_⟩
  · exact main.2.2.2.2 "name" vehicleNameRule _ (List.Mem.head _) (by decide)
  · exact main.2.2.2.2 "capacityKg" capacityKgRule _
      (List.Mem.tail _ (List.Mem.head _)) (by decide)
  · exact main.2.2.2.2 "tyres" tyresRule _
      (List.Mem.tail _ (List.Mem.tail _ (List.Mem.head _))) (by decide)

/-- UI phase of the add-vehicle form, derived from the `isSubmitting` and
`isSuccess` flags of `AddVehicle.jsx`. -/
inductive SubmitPhase where
  | Idle
  | Submitting
  | Succeeded
deriving DecidableEq

/-- State of the add-vehicle form component (`AddVehicle.jsx` lines
14-24): form values, field errors, the two flags, and the pending
`setTimeout` reset delay (in milliseconds) when one is scheduled. -/
structure AVState where
  form : AddVehicleForm
  errors : List (String × String)
  isSubmitting : Bool
  isSuccess : Bool
  pendingResetDelayMs : Option Nat

/-- Initial idle component state holding the given form values. -/
def AVState.initial (f : AddVehicleForm) : AVState :=
  { form := f, errors := [], isSubmitting := false, isSuccess := false,
    pendingResetDelayMs := none }

/-- Derived phase: `Submitting` while the request is in flight, else
`Succeeded` while the success banner shows, else `Idle`. -/
def AVState.phase (s : AVState) : SubmitPhase :=
  if s.isSubmitting then SubmitPhase.Submitting
  else if s.isSuccess then SubmitPhase.Succeeded
  else SubmitPhase.Idle

/-- Submit event (`AddVehicle.jsx` lines 75-88): ignored while already
submitting (the submit control is disabled); on invalid data only the
errors change; on valid data the flag flips and the errors clear. -/
def avSubmit (s : AVState) : AVState :=
  if s.isSubmitting then s
  else
    let validation := validateForm s.form.asData addVehicleRules
    if !validation.isValid then { s with errors := validation.errors }
    else { s with isSubmitting := true, errors := [] }

/-- Success-response event (`AddVehicle.jsx` lines 101-110 and the
`finally` on line 125): the success flag is set, a reset is scheduled
with a fixed 2000 ms delay, and the submitting flag clears. -/
def avSuccessResponse (s : AVState) : AVState :=
  { s with isSuccess := true, pendingResetDelayMs := some 2000, isSubmitting := false }

/-- Firing of the scheduled reset timer (`AddVehicle.jsx` lines 106-109):
the form values clear and the success banner is dismissed. -/
def avTimerFire (s : AVState) : AVState :=
  match s.pendingResetDelayMs with
  | some _ =>
    { s with form := { name := "", capacityKg := "", tyres := "" },
             isSuccess := false, pendingResetDelayMs := none }
  | none => s

/-- Claim C7: a valid add-vehicle submission that receives a success
response passes through Idle, Submitting and Succeeded, schedules the
reset with the fixed 2000 ms delay, and the timer returns it to Idle with
all three form fields cleared. -/
theorem addVehicle_success_flow (form : AddVehicleForm)
    (hv : (validateForm form.asData addVehicleRules).isValid = true) :
    (AVState.initial form).phase = SubmitPhase.Idle ∧
    (avSubmit (AVState.initial form)).phase = SubmitPhase.Submitting ∧
    (avSuccessResponse (avSubmit (AVState.initial form))).phase = SubmitPhase.Succeeded ∧
    (avSuccessResponse (avSubmit (AVState.initial form))).pendingResetDelayMs = some 2000 ∧
    (avTimerFire (avSuccessResponse (avSubmit (AVState.initial form)))).phase = SubmitPhase.Idle ∧
    (avTimerFire (avSuccessResponse (avSubmit (AVState.initial form)))).form.name = "" ∧
    (avTimerFire (avSuccessResponse (avSubmit (AVState.initial form)))).form.capacityKg = "" ∧
    (avTimerFire (avSuccessResponse (avSubmit (AVState.initial form)))).form.tyres = "" := by
  have hsub : avSubmit (AVState.initial form)
      = { AVState.initial form with isSubmitting := true, errors := [] } := by
    simp [avSubmit, AVState.initial, hv]
  refine ⟨rfl, ?_, ?_, ?_, ?_, ?_, ?_, ?_⟩ <;>
    rw [hsub] <;>
      simp [AVState.initial, AVState.phase, avSuccessResponse, avTimerFire]

/-- Witness for claim C7 at a concrete valid form. -/
theorem addVehicle_success_flow_witness :
    (avTimerFire (avSuccessResponse (avSubmit
        (AVState.initial (AddVehicleForm.mk "Truck-001" "5000" "6"))))).phase
      = SubmitPhase.Idle ∧
    (avTimerFire (avSuccessResponse (avSubmit
        (AVState.initial (AddVehicleForm.mk "Truck-001" "5000" "6"))))).form.name = "" := by
  have h := addVehicle_success_flow (AddVehicleForm.mk "Truck-001" "5000" "6") (by decide)
  exact ⟨h.2.2.2.2.1, h.2.2.2.2.2.1⟩

/-! ### The search form (claim C8) -/

/-- The regular expression test of the pincode rules in
`SearchBooking.jsx`: the anchored pattern of six digits. -/
def sixDigitPattern (s : String) : Bool :=
  s.length == 6 && s.data.all Char.isDigit

/-- The `searchValidationRules` object of `SearchBooking.jsx` lines
40-71. The `startTime` custom validator of the source compares
`new Date(value)` against the current clock plus one hour; the clock is
not a pure input, so that validator is the abstract parameter
`startTimeCheck` here. -/
def searchValidationRules (startTimeCheck : JSValue → (String → JSValue) → Option String) :
    List (String × FieldRule) :=
  [("capacityRequired",
    { required := true, type := some "number", min := some 1, max := some 50000,
      message := some "Required capacity must be between 1-50,000 kg" }),
   ("fromPincode",
    { required := true, pattern := some sixDigitPattern,
      message := some "From pincode must be exactly 6 digits" }),
   ("toPincode",
    { required := true, pattern := some sixDigitPattern,
      message := some "To pincode must be exactly 6 digits" }),
   ("startTime", { required := true, validate := some startTimeCheck })]

/-- The search form state (`SearchBooking.jsx` lines 22-27). -/
structure SearchForm where
  capacityRequired : String
  fromPincode : String
  toPincode : String
  startTime : String

/-- The search form state as the JS record handed to `validateForm`. -/
def SearchForm.asData (f : SearchForm) : String → JSValue := fun k =>
  if k = "capacityRequired" then .str f.capacityRequired
  else if k = "fromPincode" then .str f.fromPincode
  else if k = "toPincode" then .str f.toPincode
  else if k = "startTime" then .str f.startTime
  else .undefined

/-- Query parameters of a search request (`SearchBooking.jsx` lines
131-136). The source converts `startTime` through
`new Date(...).toISOString()`; the raw value is kept here. -/
structure SearchParams where
  capacityRequired : Option Int
  fromPincode : String
  toPincode : String
  startTime : String

/-- Synchronous outcome of one `handleSearch` run (`SearchBooking.jsx`
lines 107-138): rejection by schema validation, rejection by the
domain-level identical-pincode check, or a search request being issued.
Only the last outcome performs a network call. -/
inductive SearchOutcome where
  | schemaRejected (errors : List (String × String)) (toast : String)
  | domainRejected (errors : List (String × String)) (toast : String)
  | searchIssued (params : SearchParams)

/-- The synchronous prefix of `handleSearch` in `SearchBooking.jsx` lines
107-138: schema validation first; then, distinctly, the domain check that
pickup and destination differ, which replaces the error map with a single
`toPincode` entry and surfaces its own toast; only then is the search
issued. -/
def handleSearch (startTimeCheck : JSValue → (String → JSValue) → Option String)
    (form : SearchForm) : SearchOutcome :=
  let validation := validateForm form.asData (searchValidationRules startTimeCheck)
  if !validation.isValid then
    SearchOutcome.schemaRejected validation.errors "Please fix the errors in the search form"
  else if form.fromPincode = form.toPincode then
    SearchOutcome.domainRejected
      [("toPincode", "Destination must be different from pickup location")]
      "Pickup and destination locations must be different"
  else
    SearchOutcome.searchIssued
      { capacityRequired := jsParseInt form.capacityRequired,
        fromPincode := jsTrim form.fromPincode, toPincode := jsTrim form.toPincode,
        startTime := form.startTime }

/-- Claim C8: when the search form passes schema validation but the two
pincodes are identical, the submission is rejected at the domain level
(a distinct outcome from schema rejection), with the field error set on
`toPincode`, an error toast surfaced, and no network request issued. -/
theorem search_identical_pincodes (startTimeCheck : JSValue → (String → JSValue) → Option String)
    (form : SearchForm)
    (hv : (validateForm form.asData (searchValidationRules startTimeCheck)).isValid = true)
    (heq : form.fromPincode = form.toPincode) :
    handleSearch startTimeCheck form =
      SearchOutcome.domainRejected
        [("toPincode", "Destination must be different from pickup location")]
        "Pickup and destination locations must be different" := by
  simp [handleSearch, hv, heq]

/-- Start-time check used to witness claim C8 (the clock-dependent
validator abstracted to one that accepts). -/
def alwaysOkStartTime : JSValue → (String → JSValue) → Option String := fun _ _ => none

/-- Witness for claim C8 at the spec's scenario of identical pincodes
"110001". -/
theorem search_identical_pincodes_witness :
    handleSearch alwaysOkStartTime (SearchForm.mk "500" "110001" "110001" "2030-01-01T10:00")
      = SearchOutcome.domainRejected
          [("toPincode", "Destination must be different from pickup location")]
          "Pickup and destination locations must be different" := by
  exact search_identical_pincodes alwaysOkStartTime
    (SearchForm.mk "500" "110001" "110001" "2030-01-01T10:00") (by decide) rfl

/-! ### HTTP error-message normalisation (claim C9) -/

/-- The `switch (status)` of the response interceptor in
`src/frontend/src/services/api.js` lines 52-80: `serverMsg` is
`data.error?.message` from the response body (`none` when absent). Only
the 400 and 409 arms (and the default arm) consult the server-supplied
message; every other listed status always reports its generic message. -/
def interceptorMessage (status : Nat) (serverMsg : Option String) : String :=
  match status with
  | 400 => jsOrString serverMsg "Invalid request data"
  | 401 => "Authentication required"
  | 403 => "Access denied"
  | 404 => "Resource not found"
  | 409 => jsOrString serverMsg "Conflict occurred"
  | 422 => "Validation failed"
  | 429 => "Too many requests. Please try again later"
  | 500 => "Internal server error"
  | _ => jsOrString serverMsg "An error occurred"

/-- Claim C9 counterexample: a 404 response carrying the server message
"Vehicle not found" is still reported with the generic "Resource not
found"; the server-supplied message does not override it. -/
theorem interceptor_override_counterexample :
    interceptorMessage 404 (some "Vehicle not found") = "Resource not found" ∧
    "Resource not found" ≠ "Vehicle not found" := by
  refine ⟨rfl, by decide⟩

/-- Claim C9 (amended): each listed status maps to its generic message,
but a non-empty server-supplied message overrides the generic text only
for statuses 400 and 409; for 401, 403, 404, 422, 429 and 500 the generic
message is reported even when the body carries a message. -/
theorem interceptorMessage_amended (m : String) (hm : m ≠ "") :
    (interceptorMessage 400 none = "Invalid request data"
      ∧ interceptorMessage 400 (some m) = m) ∧
    (interceptorMessage 401 none = "Authentication required"
      ∧ interceptorMessage 401 (some m) = "Authentication required") ∧
    (interceptorMessage 403 none = "Access denied"
      ∧ interceptorMessage 403 (some m) = "Access denied") ∧
    (interceptorMessage 404 none = "Resource not found"
      ∧ interceptorMessage 404 (some m) = "Resource not found") ∧
    (interceptorMessage 409 none = "Conflict occurred"
      ∧ interceptorMessage 409 (some m) = m) ∧
    (interceptorMessage 422 none = "Validation failed"
      ∧ interceptorMessage 422 (some m) = "Validation failed") ∧
    (interceptorMessage 429 none = "Too many requests. Please try again later"
      ∧ interceptorMessage 429 (some m) = "Too many requests. Please try again later") ∧
    (interceptorMessage 500 none = "Internal server error"
      ∧ interceptorMessage 500 (some m) = "Internal server error") := by
  have hb : (m == "") = false := by
    simp [hm]
  refine ⟨⟨rfl, ?_⟩, ⟨rfl, rfl⟩, ⟨rfl, rfl⟩, ⟨rfl, rfl⟩, ⟨rfl, ?_⟩, ⟨rfl, rfl⟩,
    ⟨rfl, rfl⟩, ⟨rfl, rfl⟩⟩
  · show jsOrString (some m) "Invalid request data" = m
    simp [jsOrString, hb]
  · show jsOrString (some m) "Conflict occurred" = m
    simp [jsOrString, hb]

/-- Witness for the amended claim C9: a 400 response's server message is
reported verbatim while a 500 response keeps the generic message. -/
theorem interceptorMessage_amended_witness :
    interceptorMessage 400 (some "Vehicle already exists") = "Vehicle already exists" ∧
    interceptorMessage 500 (some "boom") = "Internal server error" := by
  exact ⟨(interceptorMessage_amended "Vehicle already exists" (by decide)).1.2,
    (interceptorMessage_amended "boom" (by decide)).2.2.2.2.2.2.2.2⟩

/-! ### Ride duration (claim C10) -/

/-- `calculateRideDuration(fromPincode, toPincode)` from
`src/unnamed/part_004` lines 122-134: parse both pincodes, default to 2
hours when either is NaN, otherwise the absolute difference modulo 24,
clamped below by 1. -/
def calculateRideDuration (fromPincode toPincode : String) : Nat :=
  match jsParseInt fromPincode, jsParseInt toPincode with
  | some a, some b => max ((a - b).natAbs % 24) 1
  | _, _ => 2

/-- Claim C10: `calculateRideDuration` always returns a value between 1
and 23; it equals `max(|from - to| mod 24, 1)` when both pincodes parse,
and 2 when either fails to parse. -/
theorem calculateRideDuration_spec (s t : String) :
    (1 ≤ calculateRideDuration s t ∧ calculateRideDuration s t ≤ 23) ∧
    (∀ a b : Int, jsParseInt s = some a → jsParseInt t = some b →
      calculateRideDuration s t = max ((a - b).natAbs % 24) 1) ∧
    ((jsParseInt s = none ∨ jsParseInt t = none) → calculateRideDuration s t = 2) := by
  refine ⟨?_, fun a b ha hb => ?_, fun h => ?_⟩
  · cases hs : jsParseInt s with
    | none => simp [calculateRideDuration, hs]
    | some a =>
      cases ht : jsParseInt t with
      | none => simp [calculateRideDuration, hs, ht]
      | some b =>
        simp only [calculateRideDuration, hs, ht]
        refine ⟨Nat.le_max_right _ _, Nat.max_le.mpr ⟨?_, by norm_num⟩⟩
        exact Nat.lt_succ_iff.mp (Nat.mod_lt _ (by norm_num))
  · simp [calculateRideDuration, ha, hb]
  · rcases h with h | h
    · simp [calculateRideDuration, h]
    · cases hs : jsParseInt s with
      | none => simp [calculateRideDuration, hs]
      | some a => simp [calculateRideDuration, hs, h]

/-- Witness for claim C10: pincodes 110001 and 110060 give
`max(59 mod 24, 1) = 11` hours, and an unparsable pincode defaults to 2. -/
theorem calculateRideDuration_spec_witness :
    calculateRideDuration "110001" "110060" = max (((110001 : Int) - 110060).natAbs % 24) 1 ∧
    calculateRideDuration "abc" "110001" = 2 := by
  exact ⟨(calculateRideDuration_spec "110001" "110060").2.1 110001 110060 (by decide) (by decide),
    (calculateRideDuration_spec "abc" "110001").2.2 (Or.inl (by decide))⟩
